import Mathlib

/-!
Shallow embedding of the plotters-solstice adapter (src/lib.rs): a
`DrawingBackend` implementation that translates abstract plotting
primitives into solstice_2d draw-list commands and flushes them to the
GPU on `present`.  Rust `f32`/`f64` values are modelled as `ℚ`, `i32`
as `ℤ` (with explicit wrap/saturation at casts), `u32`/`u8` as `ℕ`.
The draw list is modelled as the ordered list of commands recorded on
the solstice_2d `DrawList` (shape draws, line strips, text prints, and
the shared line-width / color state setters).
-/

namespace PlottersSolstice

/-- Rust `i32` -> `u32` `as`-cast: two's-complement wrap modulo 2^32. -/
def u32ofI32 (i : ℤ) : ℕ := (i % (2 ^ 32 : ℤ)).toNat

/-- Rational truncation toward zero, the rounding of a Rust float -> int
`as`-cast (before saturation). -/
def truncQ (q : ℚ) : ℤ := Int.tdiv q.num (q.den : ℤ)

/-- Rust `f32` -> `i32` `as`-cast: truncate toward zero, saturating at the
`i32` bounds. -/
def i32cast (q : ℚ) : ℤ := max (-(2 ^ 31)) (min (2 ^ 31 - 1) (truncQ q))

/-- plotters_backend::BackendColor: 8-bit rgb channels and fractional alpha. -/
structure BackendColor where
  rgb : ℕ × ℕ × ℕ
  alpha : ℚ
  deriving DecidableEq

/-- solstice_2d::Color: four float channels. -/
structure Color where
  red : ℚ
  green : ℚ
  blue : ℚ
  alpha : ℚ
  deriving DecidableEq

/-- src/lib.rs color_into: divide each byte channel by 255, pass alpha through. -/
def color_into (color : BackendColor) : Color :=
  { red := (color.rgb.1 : ℚ) / 255
    green := (color.rgb.2.1 : ℚ) / 255
    blue := (color.rgb.2.2 : ℚ) / 255
    alpha := color.alpha }

/-- solstice_2d::Rectangle. -/
structure Rectangle where
  x : ℚ
  y : ℚ
  width : ℚ
  height : ℚ
  deriving DecidableEq

/-- solstice_2d::Circle. -/
structure Circle where
  x : ℚ
  y : ℚ
  radius : ℚ
  segments : ℕ
  deriving DecidableEq

/-- solstice_2d::LineVertex: position, per-vertex line width and color. -/
structure LineVertex where
  position : ℚ × ℚ × ℚ
  width : ℚ
  color : Color
  deriving DecidableEq

/-- One recorded command of a solstice_2d DrawList: filled/stroked shape
draws, 2d line strips, text prints, and the shared-state setters. -/
inductive DrawCommand where
  | drawRect (r : Rectangle) (c : Color)
  | strokeRect (r : Rectangle) (c : Color)
  | drawCircle (ci : Circle) (c : Color)
  | strokeCircle (ci : Circle) (c : Color)
  | line2d (vs : List LineVertex)
  | setLineWidth (w : ℚ)
  | setColor (c : Color)
  | printText (text : String) (font : ℕ) (scale : ℚ) (bounds : Rectangle)
  deriving DecidableEq

/-- solstice_2d::GraphicsError, kept abstract. -/
inductive GraphicsErr where
  | submitFailed
  deriving DecidableEq

/-- A font-layout failure of the plotters text-style collaborator. -/
inductive FontErr where
  | layoutFailure
  deriving DecidableEq

/-- plotters_backend::DrawingErrorKind over this backend's error type. -/
inductive DrawingErrorKind where
  | drawingError (e : GraphicsErr)
  | fontError (e : FontErr)
  deriving DecidableEq

/-- The GL viewport stored in the solstice context (i32 components). -/
structure ViewPort where
  x : ℤ
  y : ℤ
  width : ℤ
  height : ℤ
  deriving DecidableEq

/-- solstice context: holds the current viewport. -/
structure Context where
  viewport : ViewPort
  deriving DecidableEq

/-- Context.set_viewport. -/
def Context.set_viewport (c : Context) (x y w h : ℤ) : Context :=
  { c with viewport := { x := x, y := y, width := w, height := h } }

/-- Modelled from the spec: the solstice_2d Graphics engine (external
collaborator, its Rust source is not part of this repository).  Per §6 it
tracks an internal width/height, and `process(context, draw_list)` performs
GPU submission which "may fail with an engine-specific error"; the outcome
of the next submission and the log of submitted draw lists are carried as
explicit state. -/
structure Graphics where
  width : ℚ
  height : ℚ
  submitOutcome : Option GraphicsErr
  submitLog : List (List DrawCommand)
  deriving DecidableEq

/-- Modelled from the spec: GPU submission entry point of the engine;
records the submitted draw list and reports the engine outcome. -/
def Graphics.process (g : Graphics) (dl : List DrawCommand) :
    Option GraphicsErr × Graphics :=
  (g.submitOutcome, { g with submitLog := g.submitLog ++ [dl] })

/-- Graphics.set_width_height. -/
def Graphics.set_width_height (g : Graphics) (w h : ℚ) : Graphics :=
  { g with width := w, height := h }

/-- The adapter struct SolsticeBackend of src/lib.rs. -/
structure SolsticeBackend where
  ctx : Context
  gfx : Graphics
  font_id : ℕ
  draw_list : List DrawCommand
  deriving DecidableEq

/-- SolsticeBackend::resize: set the GL viewport and the engine's
internal width/height together. -/
def resize (width height : ℚ) (s : SolsticeBackend) : SolsticeBackend :=
  { s with
      ctx := s.ctx.set_viewport 0 0 (i32cast width) (i32cast height)
      gfx := s.gfx.set_width_height width height }

/-- DrawingBackend::get_size: viewport dimensions cast to u32. -/
def get_size (s : SolsticeBackend) : ℕ × ℕ :=
  (u32ofI32 s.ctx.viewport.width, u32ofI32 s.ctx.viewport.height)

/-- DrawingBackend::ensure_prepared: a no-op. -/
def ensure_prepared (s : SolsticeBackend) :
    Except DrawingErrorKind Unit × SolsticeBackend :=
  (Except.ok (), s)

/-- DrawingBackend::present: hand the accumulated draw list to
Graphics.process, discard the engine outcome, replace the list with a
fresh empty one and report success. -/
def present (s : SolsticeBackend) :
    Except DrawingErrorKind Unit × SolsticeBackend :=
  let pr := s.gfx.process s.draw_list
  (Except.ok (), { s with gfx := pr.2, draw_list := [] })

/-- DrawingBackend::draw_pixel: silently clip coordinates outside the
surface, otherwise append a filled 1x1 rectangle. -/
def draw_pixel (p : ℤ × ℤ) (color : BackendColor) (s : SolsticeBackend) :
    Except DrawingErrorKind Unit × SolsticeBackend :=
  let size := get_size s
  if p.1 < 0 ∨ p.2 < 0 ∨ size.1 ≤ u32ofI32 p.1 ∨ size.2 ≤ u32ofI32 p.2 then
    (Except.ok (), s)
  else
    (Except.ok (),
      { s with draw_list := s.draw_list ++
          [DrawCommand.drawRect
            { x := (p.1 : ℚ), y := (p.2 : ℚ), width := 1, height := 1 }
            (color_into color)] })

/-- plotters BackendStyle capability set: a color and a stroke width (u32). -/
structure Style where
  color : BackendColor
  stroke_width : ℕ
  deriving DecidableEq

/-- DrawingBackend::draw_line: one 2-vertex line strip, both vertices
carrying the style's width and converted color. -/
def draw_line (a b : ℤ × ℤ) (style : Style) (s : SolsticeBackend) :
    Except DrawingErrorKind Unit × SolsticeBackend :=
  let width : ℚ := (style.stroke_width : ℚ)
  let color := color_into style.color
  (Except.ok (),
    { s with draw_list := s.draw_list ++
        [DrawCommand.line2d
          [{ position := ((a.1 : ℚ), (a.2 : ℚ), 0), width := width, color := color },
           { position := ((b.1 : ℚ), (b.2 : ℚ), 0), width := width, color := color }]] })

/-- DrawingBackend::draw_rect: set the shared line width, then emit a
filled or stroked rectangle with signed extents x2-x1, y2-y1. -/
def draw_rect (p1 p2 : ℤ × ℤ) (style : Style) (fill : Bool)
    (s : SolsticeBackend) : Except DrawingErrorKind Unit × SolsticeBackend :=
  let geometry : Rectangle :=
    { x := (p1.1 : ℚ), y := (p1.2 : ℚ)
      width := (p2.1 : ℚ) - (p1.1 : ℚ), height := (p2.2 : ℚ) - (p1.2 : ℚ) }
  let color := color_into style.color
  let cmd := match fill with
    | true => DrawCommand.drawRect geometry color
    | false => DrawCommand.strokeRect geometry color
  (Except.ok (),
    { s with draw_list := s.draw_list ++
        [DrawCommand.setLineWidth (style.stroke_width : ℚ), cmd] })

/-- DrawingBackend::draw_path: one line strip with a vertex per input
coordinate, all sharing the style's width and color. -/
def draw_path (path : List (ℤ × ℤ)) (style : Style) (s : SolsticeBackend) :
    Except DrawingErrorKind Unit × SolsticeBackend :=
  let width : ℚ := (style.stroke_width : ℚ)
  let color := color_into style.color
  (Except.ok (),
    { s with draw_list := s.draw_list ++
        [DrawCommand.line2d (path.map fun q =>
          { position := ((q.1 : ℚ), (q.2 : ℚ), 0), width := width, color := color })] })

/-- DrawingBackend::draw_circle: set the shared line width, then emit a
filled or stroked circle tessellated with max radius 10 segments. -/
def draw_circle (c : ℤ × ℤ) (radius : ℕ) (style : Style) (fill : Bool)
    (s : SolsticeBackend) : Except DrawingErrorKind Unit × SolsticeBackend :=
  let geometry : Circle :=
    { x := (c.1 : ℚ), y := (c.2 : ℚ), radius := (radius : ℚ)
      segments := Nat.max radius 10 }
  let color := color_into style.color
  let cmd := match fill with
    | true => DrawCommand.drawCircle geometry color
    | false => DrawCommand.strokeCircle geometry color
  (Except.ok (),
    { s with draw_list := s.draw_list ++
        [DrawCommand.setLineWidth (style.stroke_width : ℚ), cmd] })

/-- plotters text_anchor horizontal position. -/
inductive HPos where
  | left
  | right
  | center
  deriving DecidableEq

/-- plotters text_anchor vertical position. -/
inductive VPos where
  | top
  | center
  | bottom
  deriving DecidableEq

/-- plotters text anchor. -/
structure Pos where
  h_pos : HPos
  v_pos : VPos
  deriving DecidableEq

/-- plotters BackendTextStyle capability set: color, font size, anchor, an
affine transform on integer coordinates, and the font-layout collaborator
measuring a text's bounding box (which may fail). -/
structure TextStyle where
  color : BackendColor
  size : ℚ
  anchor : Pos
  transform : ℤ × ℤ → ℤ × ℤ
  layout_box : String → Except FontErr ((ℤ × ℤ) × (ℤ × ℤ))

/-- DrawingBackend::draw_text: short-circuit on zero alpha, measure via the
layout collaborator, apply anchor offsets (integer division truncating
toward zero) and the style transform, then record set-color / print /
reset-color commands. -/
def draw_text (text : String) (style : TextStyle) (p : ℤ × ℤ)
    (s : SolsticeBackend) : Except DrawingErrorKind Unit × SolsticeBackend :=
  let color := style.color
  if color.alpha = 0 then (Except.ok (), s)
  else
    match style.layout_box text with
    | Except.error e => (Except.error (DrawingErrorKind.fontError e), s)
    | Except.ok ((min_x, min_y), (max_x, max_y)) =>
      let width := max_x - min_x
      let height := max_y - min_y
      let dx : ℤ := match style.anchor.h_pos with
        | HPos.left => 0
        | HPos.right => -width
        | HPos.center => Int.tdiv (-width) 2
      let dy : ℤ := match style.anchor.v_pos with
        | VPos.top => 0
        | VPos.center => Int.tdiv (-height) 2
        | VPos.bottom => -height
      let xy := style.transform (p.1 + dx - min_x, p.2 + dy - min_y)
      let scale := style.size
      let bounds : Rectangle :=
        { x := (xy.1 : ℚ), y := (xy.2 : ℚ)
          width := (s.ctx.viewport.width : ℚ)
          height := (s.ctx.viewport.height : ℚ) }
      (Except.ok (),
        { s with draw_list := s.draw_list ++
            [DrawCommand.setColor (color_into style.color),
             DrawCommand.printText text s.font_id scale bounds,
             DrawCommand.setColor { red := 1, green := 1, blue := 1, alpha := 1 }] })

/-- A concrete adapter state over a 640x480 surface with an empty draw list
and a successfully-submitting engine. -/
def testBackend : SolsticeBackend :=
  { ctx := { viewport := { x := 0, y := 0, width := 640, height := 480 } }
    gfx := { width := 640, height := 480, submitOutcome := none, submitLog := [] }
    font_id := 0
    draw_list := [] }

/-- The same adapter state, but the engine's next GPU submission fails. -/
def failingBackend : SolsticeBackend :=
  { testBackend with
      gfx := { testBackend.gfx with submitOutcome := some GraphicsErr.submitFailed } }

/-- A concrete opaque red color. -/
def pixColor : BackendColor := { rgb := (255, 0, 0), alpha := 1 }

/-- A concrete red stroke style of width 1. -/
def redStyle : Style := { color := { rgb := (255, 0, 0), alpha := 1 }, stroke_width := 1 }

/-- A concrete blue stroke style of width 2. -/
def blueStyle : Style := { color := { rgb := (0, 0, 255), alpha := 1 }, stroke_width := 2 }

/-- A concrete text style with alpha 0 whose layout collaborator always
fails, to exhibit that zero-alpha text never reaches layout. -/
def invisibleStyle : TextStyle :=
  { color := { rgb := (10, 20, 30), alpha := 0 }
    size := 12
    anchor := { h_pos := HPos.left, v_pos := VPos.top }
    transform := fun q => q
    layout_box := fun _ => Except.error FontErr.layoutFailure }

/-- A concrete (Center, Center) anchored text style whose layout reports the
box (0,0)-(10,4) for every text. -/
def centeredStyle : TextStyle :=
  { color := { rgb := (0, 0, 0), alpha := 1 }
    size := 12
    anchor := { h_pos := HPos.center, v_pos := VPos.center }
    transform := fun q => q
    layout_box := fun _ => Except.ok ((0, 0), (10, 4)) }

/-- C1: after every call to present the adapter's draw list is empty,
regardless of the engine submission outcome recorded in the state (the
statement quantifies over all states, including those whose submission
fails); the next frame starts from an empty list. -/
theorem present_clears_draw_list (s : SolsticeBackend) :
    (present s).2.draw_list = [] := rfl

/-- C2 counterexample: a concrete state whose engine submission fails
(process reports an error for the submitted list), yet present reports
success instead of surfacing the error. -/
theorem present_failure_not_surfaced :
    (Graphics.process failingBackend.gfx failingBackend.draw_list).1 =
      some GraphicsErr.submitFailed ∧
    (present failingBackend).1 = Except.ok () := ⟨rfl, rfl⟩

/-- C2 amended: present always reports success; the engine submission
outcome is discarded rather than surfaced to the caller, and the draw list
is still replaced by a fresh empty one. -/
theorem present_always_reports_ok (s : SolsticeBackend) :
    (present s).1 = Except.ok () ∧ (present s).2.draw_list = [] := ⟨rfl, rfl⟩

/-- C4: for every text, style and anchor coordinate, if the style's color
has alpha exactly 0 then draw_text returns success and leaves the state
unchanged; since this holds for every layout collaborator (including ones
that always fail), the layout service is never consulted and a font-layout
error can never be returned for zero-alpha text. -/
theorem draw_text_zero_alpha (text : String) (style : TextStyle) (p : ℤ × ℤ)
    (s : SolsticeBackend) (h : style.color.alpha = 0) :
    draw_text text style p s = (Except.ok (), s) := by
  simp [draw_text, h]

/-- C4 witness: a zero-alpha style whose layout collaborator always fails
still draws as a successful no-op. -/
theorem draw_text_zero_alpha_witness :
    invisibleStyle.color.alpha = 0 ∧
    draw_text "hi" invisibleStyle (5, 7) testBackend = (Except.ok (), testBackend) :=
  ⟨rfl, draw_text_zero_alpha "hi" invisibleStyle (5, 7) testBackend rfl⟩

/-- C6: draw_circle emits exactly one circle record (preceded only by the
shared line-width setter) whose tessellation segment count is the maximum
of the radius and 10, hence never below 10. -/
theorem draw_circle_segment_count (c : ℤ × ℤ) (radius : ℕ) (style : Style)
    (fill : Bool) (s : SolsticeBackend) :
    (draw_circle c radius style fill s).2.draw_list = s.draw_list ++
      [DrawCommand.setLineWidth (style.stroke_width : ℚ),
       (match fill with
        | true => DrawCommand.drawCircle
        | false => DrawCommand.strokeCircle)
         { x := (c.1 : ℚ), y := (c.2 : ℚ), radius := (radius : ℚ)
           segments := Nat.max radius 10 }
         (color_into style.color)] ∧
    10 ≤ Nat.max radius 10 := by
  refine ⟨?_, Nat.le_max_right radius 10⟩
  cases fill <;> rfl

/-- C7: color conversion divides each byte channel by 255 and passes the
fractional alpha through unchanged, with no clamping. -/
theorem color_into_normalizes (c : BackendColor) (h0 : 0 ≤ c.alpha)
    (h1 : c.alpha ≤ 1) :
    color_into c =
      { red := (c.rgb.1 : ℚ) / 255, green := (c.rgb.2.1 : ℚ) / 255
        blue := (c.rgb.2.2 : ℚ) / 255, alpha := c.alpha } := rfl

/-- C7 witness: the conversion evaluated on a concrete opaque red color. -/
theorem color_into_normalizes_witness :
    0 ≤ pixColor.alpha ∧ pixColor.alpha ≤ 1 ∧
    color_into pixColor =
      { red := (pixColor.rgb.1 : ℚ) / 255, green := (pixColor.rgb.2.1 : ℚ) / 255
        blue := (pixColor.rgb.2.2 : ℚ) / 255, alpha := pixColor.alpha } :=
  ⟨by decide, by decide, color_into_normalizes pixColor (by decide) (by decide)⟩

/-- C10: draw_rect and draw_circle both record the shared line-width state
setter with the style's stroke width immediately before the emitted shape,
for every fill flag — including fill = true. -/
theorem shape_draws_set_line_width (p1 p2 c : ℤ × ℤ) (radius : ℕ)
    (style : Style) (fill : Bool) (s : SolsticeBackend) :
    (draw_rect p1 p2 style fill s).2.draw_list = s.draw_list ++
      [DrawCommand.setLineWidth (style.stroke_width : ℚ),
       (match fill with
        | true => DrawCommand.drawRect
        | false => DrawCommand.strokeRect)
         { x := (p1.1 : ℚ), y := (p1.2 : ℚ)
           width := (p2.1 : ℚ) - (p1.1 : ℚ), height := (p2.2 : ℚ) - (p1.2 : ℚ) }
         (color_into style.color)] ∧
    (draw_circle c radius style fill s).2.draw_list = s.draw_list ++
      [DrawCommand.setLineWidth (style.stroke_width : ℚ),
       (match fill with
        | true => DrawCommand.drawCircle
        | false => DrawCommand.strokeCircle)
         { x := (c.1 : ℚ), y := (c.2 : ℚ), radius := (radius : ℚ)
           segments := Nat.max radius 10 }
         (color_into style.color)] := by
  cases fill <;> exact ⟨rfl, rfl⟩

/-- C3: draw_pixel on a coordinate outside the current surface bounds is a
silent successful no-op, and on an in-bounds coordinate appends exactly one
filled 1x1 rectangle record at that coordinate with the converted color
(coordinates range over i32). -/
theorem draw_pixel_clip_policy (p : ℤ × ℤ) (c : BackendColor) (s : SolsticeBackend)
    (hr : -(2 ^ 31) ≤ p.1 ∧ p.1 < 2 ^ 31 ∧ -(2 ^ 31) ≤ p.2 ∧ p.2 < 2 ^ 31) :
    (¬ (0 ≤ p.1 ∧ 0 ≤ p.2 ∧ p.1 < ((get_size s).1 : ℤ) ∧ p.2 < ((get_size s).2 : ℤ)) →
        draw_pixel p c s = (Except.ok (), s)) ∧
    ((0 ≤ p.1 ∧ 0 ≤ p.2 ∧ p.1 < ((get_size s).1 : ℤ) ∧ p.2 < ((get_size s).2 : ℤ)) →
        draw_pixel p c s = (Except.ok (),
          { s with draw_list := s.draw_list ++
              [DrawCommand.drawRect
                { x := (p.1 : ℚ), y := (p.2 : ℚ), width := 1, height := 1 }
                (color_into c)] })) := by
  have hkey : (p.1 < 0 ∨ p.2 < 0 ∨ (get_size s).1 ≤ u32ofI32 p.1 ∨
      (get_size s).2 ≤ u32ofI32 p.2) ↔
      ¬ (0 ≤ p.1 ∧ 0 ≤ p.2 ∧ p.1 < ((get_size s).1 : ℤ) ∧
        p.2 < ((get_size s).2 : ℤ)) := by
    obtain ⟨h1, h2, h3, h4⟩ := hr
    unfold u32ofI32
    omega
  constructor
  · intro h
    simp only [draw_pixel]
    rw [if_pos (hkey.mpr h)]
  · intro h
    simp only [draw_pixel]
    rw [if_neg (fun hc => (hkey.mp hc) h)]

/-- C3 witness: the in-bounds pixel (10, 20) on the 640x480 surface. -/
theorem draw_pixel_clip_policy_witness :
    (-(2 ^ 31) ≤ ((10, 20) : ℤ × ℤ).1 ∧ ((10, 20) : ℤ × ℤ).1 < 2 ^ 31 ∧
      -(2 ^ 31) ≤ ((10, 20) : ℤ × ℤ).2 ∧ ((10, 20) : ℤ × ℤ).2 < 2 ^ 31) ∧
    ((¬ (0 ≤ ((10, 20) : ℤ × ℤ).1 ∧ 0 ≤ ((10, 20) : ℤ × ℤ).2 ∧
          ((10, 20) : ℤ × ℤ).1 < ((get_size testBackend).1 : ℤ) ∧
          ((10, 20) : ℤ × ℤ).2 < ((get_size testBackend).2 : ℤ)) →
        draw_pixel (10, 20) pixColor testBackend = (Except.ok (), testBackend)) ∧
     ((0 ≤ ((10, 20) : ℤ × ℤ).1 ∧ 0 ≤ ((10, 20) : ℤ × ℤ).2 ∧
          ((10, 20) : ℤ × ℤ).1 < ((get_size testBackend).1 : ℤ) ∧
          ((10, 20) : ℤ × ℤ).2 < ((get_size testBackend).2 : ℤ)) →
        draw_pixel (10, 20) pixColor testBackend = (Except.ok (),
          { testBackend with draw_list := testBackend.draw_list ++
              [DrawCommand.drawRect
                { x := (((10, 20) : ℤ × ℤ).1 : ℚ), y := (((10, 20) : ℤ × ℤ).2 : ℚ)
                  width := 1, height := 1 }
                (color_into pixColor)] }))) :=
  ⟨by decide, draw_pixel_clip_policy (10, 20) pixColor testBackend (by decide)⟩

/-- C5: when the layout collaborator reports a box, draw_text places the
text with pre-transform anchor offsets dx = 0, -W, -W tdiv 2 (truncating
toward zero) for Left, Right, Center and dy = 0, -H tdiv 2, -H for Top,
Center, Bottom, and applies the style transform to
(anchor_x + dx - min_x, anchor_y + dy - min_y) to obtain the print
origin. -/
theorem draw_text_anchor_placement (text : String) (style : TextStyle)
    (p : ℤ × ℤ) (s : SolsticeBackend) (box : (ℤ × ℤ) × (ℤ × ℤ))
    (halpha : ¬ style.color.alpha = 0)
    (hlayout : style.layout_box text = Except.ok box) :
    draw_text text style p s =
      (Except.ok (),
        { s with draw_list := s.draw_list ++
            [DrawCommand.setColor (color_into style.color),
             DrawCommand.printText text s.font_id style.size
               { x := ((style.transform
                     (p.1 + (match style.anchor.h_pos with
                        | HPos.left => 0
                        | HPos.right => -(box.2.1 - box.1.1)
                        | HPos.center => Int.tdiv (-(box.2.1 - box.1.1)) 2) - box.1.1,
                      p.2 + (match style.anchor.v_pos with
                        | VPos.top => 0
                        | VPos.center => Int.tdiv (-(box.2.2 - box.1.2)) 2
                        | VPos.bottom => -(box.2.2 - box.1.2)) - box.1.2)).1 : ℚ)
                 y := ((style.transform
                     (p.1 + (match style.anchor.h_pos with
                        | HPos.left => 0
                        | HPos.right => -(box.2.1 - box.1.1)
                        | HPos.center => Int.tdiv (-(box.2.1 - box.1.1)) 2) - box.1.1,
                      p.2 + (match style.anchor.v_pos with
                        | VPos.top => 0
                        | VPos.center => Int.tdiv (-(box.2.2 - box.1.2)) 2
                        | VPos.bottom => -(box.2.2 - box.1.2)) - box.1.2)).2 : ℚ)
                 width := (s.ctx.viewport.width : ℚ)
                 height := (s.ctx.viewport.height : ℚ) },
             DrawCommand.setColor { red := 1, green := 1, blue := 1, alpha := 1 }] }) := by
  obtain ⟨⟨min_x, min_y⟩, ⟨max_x, max_y⟩⟩ := box
  simp only [draw_text]
  rw [if_neg halpha, hlayout]

/-- C5 witness: a (Center, Center) anchored style whose box is
(0,0)-(10,4), so the pre-transform offset is (-5, -2). -/
theorem draw_text_anchor_placement_witness :
    (¬ centeredStyle.color.alpha = 0) ∧
    centeredStyle.layout_box "hi" =
      Except.ok ((((0, 0), (10, 4)) : (ℤ × ℤ) × (ℤ × ℤ))) ∧
    draw_text "hi" centeredStyle (100, 50) testBackend =
      (Except.ok (),
        { testBackend with draw_list := testBackend.draw_list ++
            [DrawCommand.setColor (color_into centeredStyle.color),
             DrawCommand.printText "hi" testBackend.font_id centeredStyle.size
               { x := ((centeredStyle.transform
                     (((100, 50) : ℤ × ℤ).1 + (match centeredStyle.anchor.h_pos with
                        | HPos.left => 0
                        | HPos.right => -(((((0, 0), (10, 4)) : (ℤ × ℤ) × (ℤ × ℤ))).2.1 -
                            ((((0, 0), (10, 4)) : (ℤ × ℤ) × (ℤ × ℤ))).1.1)
                        | HPos.center => Int.tdiv (-(((((0, 0), (10, 4)) : (ℤ × ℤ) × (ℤ × ℤ))).2.1 -
                            ((((0, 0), (10, 4)) : (ℤ × ℤ) × (ℤ × ℤ))).1.1)) 2) -
                        ((((0, 0), (10, 4)) : (ℤ × ℤ) × (ℤ × ℤ))).1.1,
                      ((100, 50) : ℤ × ℤ).2 + (match centeredStyle.anchor.v_pos with
                        | VPos.top => 0
                        | VPos.center => Int.tdiv (-(((((0, 0), (10, 4)) : (ℤ × ℤ) × (ℤ × ℤ))).2.2 -
                            ((((0, 0), (10, 4)) : (ℤ × ℤ) × (ℤ × ℤ))).1.2)) 2
                        | VPos.bottom => -(((((0, 0), (10, 4)) : (ℤ × ℤ) × (ℤ × ℤ))).2.2 -
                            ((((0, 0), (10, 4)) : (ℤ × ℤ) × (ℤ × ℤ))).1.2)) -
                        ((((0, 0), (10, 4)) : (ℤ × ℤ) × (ℤ × ℤ))).1.2)).1 : ℚ)
                 y := ((centeredStyle.transform
                     (((100, 50) : ℤ × ℤ).1 + (match centeredStyle.anchor.h_pos with
                        | HPos.left => 0
                        | HPos.right => -(((((0, 0), (10, 4)) : (ℤ × ℤ) × (ℤ × ℤ))).2.1 -
                            ((((0, 0), (10, 4)) : (ℤ × ℤ) × (ℤ × ℤ))).1.1)
                        | HPos.center => Int.tdiv (-(((((0, 0), (10, 4)) : (ℤ × ℤ) × (ℤ × ℤ))).2.1 -
                            ((((0, 0), (10, 4)) : (ℤ × ℤ) × (ℤ × ℤ))).1.1)) 2) -
                        ((((0, 0), (10, 4)) : (ℤ × ℤ) × (ℤ × ℤ))).1.1,
                      ((100, 50) : ℤ × ℤ).2 + (match centeredStyle.anchor.v_pos with
                        | VPos.top => 0
                        | VPos.center => Int.tdiv (-(((((0, 0), (10, 4)) : (ℤ × ℤ) × (ℤ × ℤ))).2.2 -
                            ((((0, 0), (10, 4)) : (ℤ × ℤ) × (ℤ × ℤ))).1.2)) 2
                        | VPos.bottom => -(((((0, 0), (10, 4)) : (ℤ × ℤ) × (ℤ × ℤ))).2.2 -
                            ((((0, 0), (10, 4)) : (ℤ × ℤ) × (ℤ × ℤ))).1.2)) -
                        ((((0, 0), (10, 4)) : (ℤ × ℤ) × (ℤ × ℤ))).1.2)).2 : ℚ)
                 width := (testBackend.ctx.viewport.width : ℚ)
                 height := (testBackend.ctx.viewport.height : ℚ) },
             DrawCommand.setColor { red := 1, green := 1, blue := 1, alpha := 1 }] }) :=
  ⟨by decide, rfl,
   draw_text_anchor_placement "hi" centeredStyle (100, 50) testBackend
     ((0, 0), (10, 4)) (by decide) rfl⟩

/-- C8: two draw_line calls followed by present submit, to the engine, a
draw list holding exactly the two 2-vertex line-strip records in call
order, each vertex carrying its call's stroke width and converted
color. -/
theorem two_lines_present_in_order (a b c d : ℤ × ℤ) (st1 st2 : Style)
    (s : SolsticeBackend) (h : s.draw_list = []) :
    (present (draw_line c d st2 (draw_line a b st1 s).2).2).2.gfx.submitLog =
      s.gfx.submitLog ++
        [[DrawCommand.line2d
            [{ position := ((a.1 : ℚ), (a.2 : ℚ), 0), width := (st1.stroke_width : ℚ)
               color := color_into st1.color },
             { position := ((b.1 : ℚ), (b.2 : ℚ), 0), width := (st1.stroke_width : ℚ)
               color := color_into st1.color }],
          DrawCommand.line2d
            [{ position := ((c.1 : ℚ), (c.2 : ℚ), 0), width := (st2.stroke_width : ℚ)
               color := color_into st2.color },
             { position := ((d.1 : ℚ), (d.2 : ℚ), 0), width := (st2.stroke_width : ℚ)
               color := color_into st2.color }]]] := by
  simp [draw_line, present, Graphics.process, h]

/-- C8 witness: two concrete lines on the 640x480 surface with distinct
styles, starting from an empty draw list. -/
theorem two_lines_present_in_order_witness :
    testBackend.draw_list = [] ∧
    (present (draw_line (2, 3) (4, 5) blueStyle
        (draw_line (0, 0) (1, 1) redStyle testBackend).2).2).2.gfx.submitLog =
      testBackend.gfx.submitLog ++
        [[DrawCommand.line2d
            [{ position := ((((0, 0) : ℤ × ℤ).1 : ℚ), (((0, 0) : ℤ × ℤ).2 : ℚ), 0)
               width := (redStyle.stroke_width : ℚ), color := color_into redStyle.color },
             { position := ((((1, 1) : ℤ × ℤ).1 : ℚ), (((1, 1) : ℤ × ℤ).2 : ℚ), 0)
               width := (redStyle.stroke_width : ℚ), color := color_into redStyle.color }],
          DrawCommand.line2d
            [{ position := ((((2, 3) : ℤ × ℤ).1 : ℚ), (((2, 3) : ℤ × ℤ).2 : ℚ), 0)
               width := (blueStyle.stroke_width : ℚ), color := color_into blueStyle.color },
             { position := ((((4, 5) : ℤ × ℤ).1 : ℚ), (((4, 5) : ℤ × ℤ).2 : ℚ), 0)
               width := (blueStyle.stroke_width : ℚ), color := color_into blueStyle.color }]]] :=
  ⟨rfl, two_lines_present_in_order (0, 0) (1, 1) (2, 3) (4, 5) redStyle blueStyle
    testBackend rfl⟩

/-- Truncation toward zero agrees with the floor on nonnegative
rationals. -/
lemma truncQ_eq_floor {q : ℚ} (hq : 0 ≤ q) : truncQ q = ⌊q⌋ := by
  unfold truncQ
  rw [Int.tdiv_eq_ediv (Rat.num_nonneg.mpr hq) (Int.natCast_nonneg q.den)]
  exact Rat.floor_def.symm

/-- C9: resize followed by get_size returns the requested size up to
integer truncation, because resize writes both the viewport and the
engine's internal width/height. -/
theorem resize_then_get_size (w h : ℚ) (s : SolsticeBackend)
    (hw : 0 ≤ w ∧ w < 2 ^ 31) (hh : 0 ≤ h ∧ h < 2 ^ 31) :
    get_size (resize w h s) = ((truncQ w).toNat, (truncQ h).toNat) ∧
    (resize w h s).gfx.width = w ∧ (resize w h s).gfx.height = h := by
  have hwb : 0 ≤ truncQ w ∧ truncQ w < 2 ^ 31 := by
    rw [truncQ_eq_floor hw.1]
    exact ⟨Int.floor_nonneg.mpr hw.1, Int.floor_lt.mpr (by exact_mod_cast hw.2)⟩
  have hhb : 0 ≤ truncQ h ∧ truncQ h < 2 ^ 31 := by
    rw [truncQ_eq_floor hh.1]
    exact ⟨Int.floor_nonneg.mpr hh.1, Int.floor_lt.mpr (by exact_mod_cast hh.2)⟩
  have hcw : i32cast w = truncQ w := by
    unfold i32cast
    rw [min_eq_right (by omega), max_eq_right (by omega)]
  have hch : i32cast h = truncQ h := by
    unfold i32cast
    rw [min_eq_right (by omega), max_eq_right (by omega)]
  refine ⟨?_, rfl, rfl⟩
  show (u32ofI32 (i32cast w), u32ofI32 (i32cast h)) = _
  rw [hcw, hch]
  unfold u32ofI32
  rw [Int.emod_eq_of_lt hwb.1 (by omega), Int.emod_eq_of_lt hhb.1 (by omega)]

/-- C9 witness: resizing the concrete adapter to 800x600 and reading the
size back. -/
theorem resize_then_get_size_witness :
    ((0 : ℚ) ≤ 800 ∧ (800 : ℚ) < 2 ^ 31) ∧ ((0 : ℚ) ≤ 600 ∧ (600 : ℚ) < 2 ^ 31) ∧
    (get_size (resize 800 600 testBackend) = ((truncQ 800).toNat, (truncQ 600).toNat) ∧
     (resize 800 600 testBackend).gfx.width = 800 ∧
     (resize 800 600 testBackend).gfx.height = 600) :=
  ⟨⟨by norm_num, by norm_num⟩, ⟨by norm_num, by norm_num⟩,
   resize_then_get_size 800 600 testBackend ⟨by norm_num, by norm_num⟩
     ⟨by norm_num, by norm_num⟩⟩

end PlottersSolstice
